import Mathlib

/-!
Shallow embedding of the pg_orchestrator upgrade engine
(src/upgrade/database.py, src/upgrade/migration.py, src/upgrade/upgrade.py,
src/manager/dockerManager.py, src/src/manifest.py).

Conventions of the embedding:
* Python exceptions are mirrored by `Except Err`; each `Err` constructor
  names the Python exception class raised at that point.
* Shell commands issued inside the container are recorded as `Op` values in
  a trace; the exit code / captured output of an external command is an
  explicit parameter of the embedding wherever the code inspects it.
* A log file is `Option (List String)`: `none` means the file does not
  exist; appending output lines creates it.
* `os.path.join a b` is modelled as `a ++ "/" ++ b` (all paths in the
  orchestrator are relative names joined under absolute directories, and
  directory arguments never end in a slash).
* `os.path.abspath` is modelled as the identity (paths handed to it in the
  code are already produced by joins of fixed roots).
-/

deriving instance DecidableEq for Except

namespace PgOrch

/-- Python exception classes that the embedded code can raise. -/
inductive Err where
  | valueError (msg : String)
  | keyError (msg : String)
  | fileNotFound (path : String)
  | typeError (msg : String)
  | runtimeError (msg : String)
  | commandError (exit_code : Int) (cmd : String)
  | attributeError (msg : String)
deriving Repr, DecidableEq

/-- Model of `ScriptList = Union[str, List[str], None]` from src/src/manifest.py. -/
inductive ScriptList where
  | nil
  | str (s : String)
  | strs (l : List String)
deriving Repr, DecidableEq

/-- Python truthiness of a `ScriptList` value (`None`, `''` and `[]` are falsy). -/
def ScriptList.truthy : ScriptList → Bool
  | .nil => false
  | .str s => ¬s.isEmpty
  | .strs l => ¬l.isEmpty

/-- Python `a or b` on `ScriptList` values. -/
def ScriptList.orFallback (a b : ScriptList) : ScriptList :=
  if a.truthy then a else b

/-- Python's substring test `needle in hay` on character lists. -/
def charsContain (needle hay : List Char) : Bool :=
  match hay with
  | [] => needle.isEmpty
  | _ :: rest => needle.isPrefixOf hay || charsContain needle rest

/-- Python truthiness of an `Optional[str]` (`None` and `''` are falsy). -/
def optStrTruthy : Option String → Bool
  | none => false
  | some s => ¬s.isEmpty

/-- Longest digit run at the head of the character list, with the rest
(the backtracking-free reading of the regex atom `\d+` when the next
pattern character cannot match a digit, as in `\d+\.`). -/
def spanDigits : List Char → List Char × List Char
  | [] => ([], [])
  | c :: rest =>
    if c.isDigit then
      let p := spanDigits rest
      (c :: p.1, p.2)
    else ([], c :: rest)

/-- Model of `re.match(r'^\d+\.\d+\.\d+$', s)` from `DbVersion.create` (ttdb branch). -/
def ttdbVersionMatch (s : List Char) : Bool :=
  let p1 := spanDigits s
  if p1.1.isEmpty then false else
  match p1.2 with
  | [] => false
  | c :: r2 =>
    if c = '.' then
      let p2 := spanDigits r2
      if p2.1.isEmpty then false else
      match p2.2 with
      | [] => false
      | c2 :: r3 =>
        if c2 = '.' then
          let p3 := spanDigits r3
          if p3.1.isEmpty then false else p3.2.isEmpty
        else false
    else false

/-- Model of `re.match(r'^(\d+)\.(\d+)(\.\d+)?$', s)` from `DbVersion.create`
(pgdg branch); returns the two captured groups `(major, minor)`. -/
def pgdgVersionMatch (s : List Char) : Option (List Char × List Char) :=
  let p1 := spanDigits s
  if p1.1.isEmpty then none else
  match p1.2 with
  | [] => none
  | c :: r2 =>
    if c = '.' then
      let p2 := spanDigits r2
      if p2.1.isEmpty then none else
      match p2.2 with
      | [] => some (p1.1, p2.1)
      | c2 :: r3 =>
        if c2 = '.' then
          let p3 := spanDigits r3
          if p3.1.isEmpty then none else
          if p3.2.isEmpty then some (p1.1, p2.1) else none
        else none
    else none

/-- Python `s.split(sep)` for a single-character separator
(`"".split(sep) == ['']`). -/
def splitOnChar (sep : Char) : List Char → List (List Char)
  | [] => [[]]
  | c :: rest =>
    if c = sep then [] :: splitOnChar sep rest
    else
      match splitOnChar sep rest with
      | [] => [[c]]
      | h :: t => (c :: h) :: t

/-- Model of `DbVersion` dataclass from src/upgrade/database.py. -/
structure DbVersion where
  version : String
  edition : Option String
  major : String
  db_type : String
deriving Repr, DecidableEq

/-- Model of `DbVersion.__str__`: `ttdb` renders as `version-edition`, otherwise
`version-pgdg` (Python would render a missing edition as the text `None`). -/
def DbVersion.render (v : DbVersion) : String :=
  if v.db_type = "ttdb" then
    v.version ++ "-" ++ (match v.edition with | some e => e | none => "None")
  else
    v.version ++ "-pgdg"

/-- Model of `DbVersion.create(version, edition, db_type)` from
src/upgrade/database.py. For `ttdb` the string must be MAJOR.MINOR.PATCH and
an edition is required; for `pgdg` the string is MAJOR.MINOR or
MAJOR.MINOR.PATCH and only MAJOR.MINOR is kept. -/
def DbVersion.create (version : String) (edition : Option String)
    (db_type : String) : Except Err DbVersion :=
  if db_type = "ttdb" then
    if ¬ttdbVersionMatch version.data then
      .error (.valueError ("Invalid version string " ++ version))
    else if ¬optStrTruthy edition then
      .error (.valueError ("DB edition is not provided for version " ++ version))
    else
      .ok ⟨version, edition, String.mk ((splitOnChar '.' version.data).headD []), db_type⟩
  else if db_type = "pgdg" then
    match pgdgVersionMatch version.data with
    | none => .error (.valueError ("Invalid pgdg version string " ++ version))
    | some p =>
      .ok ⟨String.mk p.1 ++ "." ++ String.mk p.2, none, String.mk p.1, "pgdg"⟩
  else
    .error (.valueError ("Unknown db_type " ++ db_type))

/-- Model of `MigrationStrategy` enum from src/src/manifest.py. -/
inductive MigrationStrategy where
  | pg_dumpall
  | pg_upgrade
  | minor
deriving Repr, DecidableEq

/-- Model of `MigrationStep` model from src/src/manifest.py (fields used by the
migration engine; `args` is unused by the orchestration paths embedded
here). -/
structure MigrationStep where
  type : MigrationStrategy
  db_version : String
  db_edition : Option String
  package : Option String
  pre_scripts : ScriptList
  post_scripts : ScriptList
  verifiers : ScriptList
deriving Repr, DecidableEq

/-- Model of `MigrationManifest` model from src/src/manifest.py (fields consumed by
the upgrade engine). -/
structure MigrationManifest where
  steps : List MigrationStep
  db_type : String
  db_version : String
  db_edition : Option String
  package : Option String
  initial_setup_script : Option String
  initial_pre_scripts : ScriptList
  initial_post_scripts : ScriptList
  pre_scripts : ScriptList
  post_scripts : ScriptList
  verifiers : ScriptList
deriving Repr, DecidableEq

/-- Model of `Database` dataclass from src/upgrade/database.py (the
`docker_manager` handle is the ambient executor and is not part of the
value). `version`/`bin_path` are `None` for the bootstrap "old"
placeholder. -/
structure Database where
  version : Option DbVersion
  bin_path : Option String
  data_path : String
  logs_dir : String
deriving Repr, DecidableEq

/-- Model of `Environment` dataclass from src/upgrade/migration.py
(`scripts_dir`/`packages_dir` are `None` when the manifest references no
script/package, see `prepare_environment`). -/
structure Environment where
  tmp_dir : String
  new_db : String
  old_db : String
  logs_dir : String
  scripts_dir : Option String
  packages_dir : Option String
  db_installer : String
  pgdg_installer : String
deriving Repr, DecidableEq

/-- One command issued to the in-container executor by the migration
engine, as recorded in the trace of a run. -/
inductive Op where
  | shellRm (path : String)
  | shellMv (src dst : String)
  | shellMkdir (path : String)
  | shellChmod (mode path : String)
  | shellChown (owner path : String)
  | shellCp (src dst : String)
  | installDb (v : DbVersion) (data_path : String)
  | initdbRun (data_path : String)
  | startDb (v : Option DbVersion)
  | stopDb (v : Option DbVersion)
  | runSql (script : String)
  | runShell (script : String)
deriving Repr, DecidableEq

/-- Directory-mutating commands among the engine's trace operations
(`rm`, `mv`, `mkdir`, `chmod`, `chown`, `cp`, and cluster initialization,
which populates a data directory). -/
def Op.isDirMutation : Op → Bool
  | .shellRm _ => true
  | .shellMv _ _ => true
  | .shellMkdir _ => true
  | .shellChmod _ _ => true
  | .shellChown _ _ => true
  | .shellCp _ _ => true
  | .initdbRun _ => true
  | _ => false

/-- Model of `self.state` dict of `MigrationRunner`. -/
structure RunnerState where
  old_db : Database
  new_db : Database
  step : Option MigrationStep
deriving Repr, DecidableEq

/-- Model of `MigrationRunner.extract_plain_script_list`: normalize a script field
to a list (`None`/empty values normalize to Python `None`). -/
def extract_plain_script_list : ScriptList → Option (List String)
  | .nil => none
  | .str s => if s.isEmpty then none else some [s]
  | .strs l => if l.isEmpty then none else some l

/-- Dispatch on the script name done inside `MigrationRunner.run_scripts`:
`.sql` goes through the SQL-script runner, anything else through the shell
runner. -/
def scriptOp (s : String) : Op :=
  if ".sql".data.isSuffixOf s.data then Op.runSql s else Op.runShell s

/-- Model of `MigrationRunner.run_scripts(scripts, stage)`: nothing runs for an
empty normalization; otherwise the new database is started, each script is
run in order, and the database is stopped. Returns the trace of issued
operations (script failures abort the run but do not add directory
mutations; the trace is the complete-run trace). -/
def run_scripts (newVer : Option DbVersion) (scripts : ScriptList) : List Op :=
  if ¬scripts.truthy then [] else
  match extract_plain_script_list scripts with
  | none => []
  | some l => Op.startDb newVer :: (l.map scriptOp ++ [Op.stopDb newVer])

/-- Model of `MigrationRunner.run_pre_step` script selection: minor steps use the
manifest's `initial_pre_scripts` falling back to its `pre_scripts`; other
steps use the step's `pre_scripts` falling back to the manifest's. -/
def select_pre_scripts (manifest : MigrationManifest) (step : MigrationStep) :
    ScriptList :=
  if step.type = MigrationStrategy.minor then
    manifest.initial_pre_scripts.orFallback manifest.pre_scripts
  else
    step.pre_scripts.orFallback manifest.pre_scripts

/-- The FIRST `run_post_step` definition in src/upgrade/migration.py
(lines 277-287), which mirrors `run_pre_step`'s minor-aware fallback.
In Python this method is dead: the second definition of the same name
below shadows it when the class body is evaluated. -/
def select_post_scripts_shadowed (manifest : MigrationManifest)
    (step : MigrationStep) : ScriptList :=
  if step.type = MigrationStrategy.minor then
    manifest.initial_post_scripts.orFallback manifest.post_scripts
  else
    step.post_scripts.orFallback manifest.post_scripts

/-- The SECOND `run_post_step` definition (lines 289-292): the effective
method. For every strategy it takes the step's `post_scripts`, falling
back to the manifest's `post_scripts`; the minor-specific
`initial_post_scripts` are never consulted. -/
def select_post_scripts (manifest : MigrationManifest) (step : MigrationStep) :
    ScriptList :=
  step.post_scripts.orFallback manifest.post_scripts

/-- Model of `MigrationRunner.run_verifier` script selection. -/
def select_verifiers (manifest : MigrationManifest) (step : MigrationStep) :
    ScriptList :=
  step.verifiers.orFallback manifest.verifiers

/-- Trace of the effective `run_post_step`. -/
def run_post_step (manifest : MigrationManifest) (step : MigrationStep)
    (newVer : Option DbVersion) : List Op :=
  run_scripts newVer (select_post_scripts manifest step)

/-- Trace of the dead first `run_post_step` definition, had it been the
one bound to the method name. -/
def run_post_step_shadowed (manifest : MigrationManifest) (step : MigrationStep)
    (newVer : Option DbVersion) : List Op :=
  run_scripts newVer (select_post_scripts_shadowed manifest step)

/-- Trace of `run_pre_step`. -/
def run_pre_step (manifest : MigrationManifest) (step : MigrationStep)
    (newVer : Option DbVersion) : List Op :=
  run_scripts newVer (select_pre_scripts manifest step)

/-- Model of `Environment.get_script`: join under `scripts_dir` and require the file
to exist (`fileExists` is the host filesystem oracle). A `None`
`scripts_dir` would make Python's `os.path.join` raise a `TypeError`. -/
def Environment.get_script (env : Environment) (fileExists : String → Bool)
    (script_name : String) : Except Err String :=
  match env.scripts_dir with
  | none => .error (.typeError "join with None scripts_dir")
  | some d =>
    let path := d ++ "/" ++ script_name
    if fileExists path then .ok path
    else .error (.fileNotFound ("Failed to find script " ++ path))

/-- Model of `Environment.get_package`, same shape as `get_script`. -/
def Environment.get_package (env : Environment) (fileExists : String → Bool)
    (package_name : String) : Except Err String :=
  match env.packages_dir with
  | none => .error (.typeError "join with None packages_dir")
  | some d =>
    let path := d ++ "/" ++ package_name
    if fileExists path then .ok path
    else .error (.fileNotFound ("Failed to find package " ++ path))

/-- Model of `get_bin_dir` from src/upgrade/database.py. `readMarker path` is the
stripped content of `cat path` inside the container when that `cat`
succeeds (`none` on any failure), modelling the `check_code=False` read of
the installer-written marker file. -/
def get_bin_dir (readMarker : String → Option String) (version : DbVersion)
    (package_path : Option String) : Except Err String :=
  if version.db_type = "ttdb" then
    .ok ("/opt/tantor/db/" ++ version.major ++ "/bin")
  else if version.db_type = "pgdg" then
    match package_path with
    | some _ =>
      match readMarker ("/tmp/pg_install_path_" ++ version.major ++ ".txt") with
      | some content =>
        if content.isEmpty then .ok ("/usr/local/pgsql/" ++ version.major ++ "/bin")
        else .ok (content ++ "/bin")
      | none => .ok ("/usr/local/pgsql/" ++ version.major ++ "/bin")
    | none => .ok ("/usr/local/pgsql/" ++ version.major ++ "/bin")
  else
    .error (.valueError ("Unsupported db_type: " ++ version.db_type))

/-- Model of `create_db` from src/upgrade/database.py: make the per-version log
directory `logs_{version}`, run the installer (its in-container command and
failure policy are modelled separately for the executor-level claims; a
completed `create_db` presupposes a zero installer exit, any other exit
aborts the run before a `Database` value exists), resolve the binary
directory, and return the handle. The returned trace records the install. -/
def create_db (readMarker : String → Option String) (logs_dir : String)
    (db_path : String) (version : DbVersion) (package_path : Option String) :
    Except Err (Database × List Op) :=
  let db_logs_dir := logs_dir ++ "/logs_" ++ version.render
  match get_bin_dir readMarker version package_path with
  | .error e => .error e
  | .ok bin_path =>
    .ok (⟨some version, some bin_path, db_path, db_logs_dir⟩,
         [Op.installDb version db_path])

/-- Model of `MigrationRunner.clean_db_directory`. -/
def clean_db_directory (db_path : String) : List Op :=
  [Op.shellRm db_path, Op.shellMkdir db_path,
   Op.shellChmod "0700" db_path, Op.shellChown "postgres:postgres" db_path]

/-- Model of `MigrationRunner.create_initial_state`: install the manifest's starting
version into the "new" slot at `env.new_db`, build the empty "old"
placeholder at `env.old_db`, force-clean both data directories, and
initialize the new cluster. -/
def create_initial_state (env : Environment) (fileExists : String → Bool)
    (readMarker : String → Option String) (manifest : MigrationManifest) :
    List Op × Except Err RunnerState :=
  match DbVersion.create manifest.db_version manifest.db_edition
      manifest.db_type with
  | .error e => ([], .error e)
  | .ok initial_version =>
    let pkg : Except Err (Option String) :=
      match manifest.package with
      | some p =>
        if p.isEmpty then .ok none
        else (env.get_package fileExists p).map some
      | none => .ok none
    match pkg with
    | .error e => ([], .error e)
    | .ok initial_package_path =>
      match create_db readMarker env.logs_dir env.new_db initial_version
          initial_package_path with
      | .error e => ([], .error e)
      | .ok r =>
        let initial_db := r.1
        let old_db : Database := ⟨none, none, env.old_db, env.logs_dir⟩
        let cleanup := clean_db_directory initial_db.data_path ++
            clean_db_directory old_db.data_path
        (r.2 ++ cleanup ++ [Op.initdbRun initial_db.data_path],
         .ok ⟨old_db, initial_db, none⟩)

/-- Model of `MigrationRunner.prepare_step(step)` from src/upgrade/migration.py:
delete the old data directory, move the new data directory onto the old
path, update the moved instance's `data_path`, swap the old/new slots, then
install the step's target version at `env.new_db` into the "new" slot. -/
def prepare_step (env : Environment) (fileExists : String → Bool)
    (readMarker : String → Option String) (manifest : MigrationManifest)
    (step : MigrationStep) (st : RunnerState) :
    List Op × Except Err RunnerState :=
  let old_data := st.old_db.data_path
  let new_data := st.new_db.data_path
  let moveOps := [Op.shellRm old_data, Op.shellMv new_data old_data]
  let movedNew : Database := { st.new_db with data_path := old_data }
  match DbVersion.create step.db_version step.db_edition manifest.db_type with
  | .error e => (moveOps, .error e)
  | .ok new_version =>
    let pkg : Except Err (Option String) :=
      match step.package with
      | some p =>
        if p.isEmpty then .ok none
        else (env.get_package fileExists p).map some
      | none => .ok none
    match pkg with
    | .error e => (moveOps, .error e)
    | .ok new_package_path =>
      match create_db readMarker env.logs_dir env.new_db new_version
          new_package_path with
      | .error e => (moveOps, .error e)
      | .ok r => (moveOps ++ r.2, .ok ⟨movedNew, r.1, some step⟩)

/-- Model of `MigrationRunner.run_minor`: run pre-step scripts, require equal major
versions (a `ValueError` otherwise), then delete the new data directory,
move the old one into the new path, recreate an empty old directory with
fixed ownership and permissions, smoke-start and stop the new instance,
and run post-step scripts. Returns the issued trace together with the
outcome. -/
def run_minor (manifest : MigrationManifest) (st : RunnerState) :
    List Op × Except Err Unit :=
  match st.step with
  | none => ([], .error (.attributeError "step is None"))
  | some step =>
    let preOps := run_pre_step manifest step st.new_db.version
    match st.old_db.version, st.new_db.version with
    | some vo, some vn =>
      if vo.major ≠ vn.major then
        (preOps, .error (.valueError "Minor upgrade: major version mismatch"))
      else
        let old_data := st.old_db.data_path
        let new_data := st.new_db.data_path
        let dirOps := [Op.shellRm new_data, Op.shellMv old_data new_data,
          Op.shellMkdir old_data, Op.shellChmod "0700" old_data,
          Op.shellChown "postgres:postgres" old_data]
        let smoke := [Op.startDb st.new_db.version, Op.stopDb st.new_db.version]
        let postOps := run_post_step manifest step st.new_db.version
        (preOps ++ dirOps ++ smoke ++ postOps, .ok ())
    | _, _ => (preOps, .error (.attributeError "version is None"))

/-- Model of `ExecResult` from src/manager/dockerManager.py. -/
structure ExecResult where
  exit_code : Int
  output : String
deriving Repr, DecidableEq

/-- Model of `shlex.join` for argument vectors without shell metacharacters (every
command the migration engine joins is of this form). -/
def shlexJoin (parts : List String) : String :=
  String.intercalate " " parts

/-- Exit-code policy of `DockerContainerManager.shell` from
src/manager/dockerManager.py: the command's exit code and captured output
are surfaced as an `ExecResult`; when `check_code` is true any nonzero exit
raises a `RuntimeError` instead. There is no special case for any command
or exit code. -/
def shell (command : List String) (check_code : Bool) (exit_code : Int)
    (output : String) : Except Err ExecResult :=
  if check_code ∧ exit_code ≠ 0 then
    .error (.commandError exit_code (shlexJoin command))
  else
    .ok ⟨exit_code, output⟩

/-- Exit-code policy of `DockerContainerManager.exec_command` (the
performance-runner entry point): the exit code is returned, never raised;
exit code 127 from a command mentioning `db_installer.sh` is downgraded
to 0 because `systemctl` is absent inside containers. -/
def exec_command (command : String) (exit_code : Int) : Int :=
  if exit_code ≠ 0 then
    if charsContain "db_installer.sh".data command.data ∧ exit_code = 127 then 0
    else exit_code
  else exit_code

/-- Model of `verify_package_version` from src/upgrade/database.py.
`dpkg_exit` is the exit code of `dpkg -I` (run with `check_code=False`)
and `version_field` the first `Version:` capture found in its output
(`none` when the regex search fails). For `pgdg` only the numeric prefix
before the first hyphen is compared; for `ttdb` the whole string. -/
def verify_package_version (dpkg_exit : Int) (version_field : Option String)
    (version : DbVersion) : Except Err Unit :=
  if dpkg_exit ≠ 0 then
    .error (.runtimeError "Failed to inspect package")
  else
    match version_field with
    | none => .error (.runtimeError "Failed to parse version from package")
    | some pv =>
      if version.db_type = "pgdg" then
        if String.mk ((splitOnChar '-' pv.data).headD []) ≠ version.version
        then .error (.runtimeError "Package version mismatch")
        else .ok ()
      else
        if pv ≠ version.version then
          .error (.runtimeError "Package version mismatch")
        else .ok ()

/-- The installer argument vector built by `run_db_installer`
(src/upgrade/database.py, lines 246-286). -/
def installer_command (db_installer pgdg_installer : String)
    (version : DbVersion) (package_path : Option String) (db_type : String) :
    List String :=
  if db_type = "pgdg" then
    match package_path with
    | some p => [pgdg_installer, "--from-file=" ++ p]
    | none =>
      [pgdg_installer, "--maintenance-version=" ++ version.version,
       "--install-path=/usr/local/pgsql/" ++ version.major]
  else
    match package_path with
    | some p => [db_installer, "--from-file=" ++ p]
    | none =>
      [db_installer,
       "--edition=" ++ (match version.edition with | some e => e | none => "None"),
       "--maintenance-version=" ++ version.version,
       "--major-version=" ++ version.major]

/-- Model of `run_db_installer` from src/upgrade/database.py: when installing from a
package, the package version is verified first; then the installer script
is executed through `shell` with the default `check_code=True`, so ANY
nonzero installer exit (127 included) raises. The caught-and-logged
exception at lines 288-296 is re-raised unchanged. -/
def run_db_installer (db_installer pgdg_installer : String)
    (version : DbVersion) (package_path : Option String) (db_type : String)
    (dpkg_exit : Int) (version_field : Option String)
    (installer_exit : Int) (installer_output : String) :
    Except Err ExecResult :=
  let cmd := installer_command db_installer pgdg_installer version
      package_path db_type
  match package_path with
  | some _ =>
    match verify_package_version dpkg_exit version_field version with
    | .error e => .error e
    | .ok _ => shell cmd true installer_exit installer_output
  | none => shell cmd true installer_exit installer_output

/-- The version part of log-file names: Python's `f'..._{db.version}'`
renders a `None` version as the text `None`. -/
def renderOptVersion : Option DbVersion → String
  | some v => v.render
  | none => "None"

/-- Model of `get_log_file(db, name)` from src/upgrade/database.py. -/
def get_log_file (db : Database) (logfilename : String) : String :=
  db.logs_dir ++ "/" ++ logfilename

/-- The per-binary log file used by `run_pg_binary` and re-opened by
`run_sql_script`: `{binary}_{version}.log` under the instance's log
directory. -/
def binary_log_file (db : Database) (binary : String) : String :=
  get_log_file db (binary ++ "_" ++ renderOptVersion db.version ++ ".log")

/-- Observable behaviour of one in-container binary execution: its exit
code and the output lines it streams (which `shell` tees into the log
file). -/
structure ExecBehavior where
  exit_code : Int
  output : List String
deriving Repr, DecidableEq

/-- Model of `shell`'s log-file handling: each streamed chunk is appended with
`open(logfile, 'a')`, so the file is created on the first chunk and prior
content is preserved. A run that streams nothing never creates the file. -/
def appendLog (log : Option (List String)) (out : List String) :
    Option (List String) :=
  match log, out with
  | none, [] => none
  | none, out => some out
  | some l, out => some (l ++ out)

/-- Model of `run_pg_binary(db, binary, *args)` from src/upgrade/database.py,
restricted to its observable effect on the binary's log file and its
outcome: output is appended to `{binary}_{version}.log` as it streams, and
a nonzero exit raises (`shell` runs with `check_code=True`); on success the
captured output is returned. (The extra diagnostic copying for a failing
`pg_upgrade` adds log-directory operations only.) -/
def run_pg_binary (binary : String) (beh : ExecBehavior)
    (log : Option (List String)) :
    Option (List String) × Except Err (List String) :=
  (appendLog log beh.output,
   if beh.exit_code ≠ 0 then .error (.commandError beh.exit_code binary)
   else .ok beh.output)

/-- Python `'ERROR:' in line`. -/
def lineHasErrorMarker (line : String) : Bool :=
  charsContain "ERROR:".data line.data

/-- Model of `run_sql_script(db, script_path)` from src/upgrade/database.py: run the
script through `psql` (appending to the shared `psql_{version}.log`); a
nonzero `psql` exit propagates as the command error. After a zero exit the
WHOLE log file, if it exists, is scanned line by line for `ERROR:`; a hit
raises a `RuntimeError` naming the script; a missing log file is only a
warning. Returns the updated log file and the outcome. -/
def run_sql_script (script_path : String) (beh : ExecBehavior)
    (log : Option (List String)) :
    Option (List String) × Except Err Unit :=
  let r := run_pg_binary "psql" beh log
  match r.2 with
  | .error e => (r.1, .error e)
  | .ok _ =>
    match r.1 with
    | some lines =>
      if lines.any lineHasErrorMarker then
        (r.1, .error (.runtimeError
          ("Error found during execution of " ++ script_path)))
      else (r.1, .ok ())
    | none => (r.1, .ok ())

/-- Model of `iter_script_list` inside `check_scripts_exist`
(src/upgrade/upgrade.py): normalize one manifest script field to a list
(falsy values give the empty list). -/
def iter_script_list : ScriptList → List String
  | .nil => []
  | .str s => if s.isEmpty then [] else [s]
  | .strs l => if l.isEmpty then [] else l

/-- Model of `iter_scripts` inside `check_scripts_exist`: manifest-level
`pre_scripts`, `post_scripts`, `verifiers`, then the same three fields of
every step. The manifest's `initial_pre_scripts`, `initial_post_scripts`
and `initial_setup_script` are NOT yielded. -/
def iterCheckedScripts (manifest : MigrationManifest) : List String :=
  iter_script_list manifest.pre_scripts ++
  iter_script_list manifest.post_scripts ++
  iter_script_list manifest.verifiers ++
  manifest.steps.flatMap (fun step =>
    iter_script_list step.pre_scripts ++
    iter_script_list step.post_scripts ++
    iter_script_list step.verifiers)

/-- Model of `check_scripts_exist(scripts_path, manifest)` from
src/upgrade/upgrade.py: every truthy name yielded by `iter_scripts` must
exist under `scripts_path`, else a `FileNotFoundError` listing the missing
paths is raised. -/
def check_scripts_exist (fileExists : String → Bool) (scripts_path : String)
    (manifest : MigrationManifest) : Except Err Unit :=
  let missing := ((iterCheckedScripts manifest).filter
      (fun s => ¬s.isEmpty)).map (fun s => scripts_path ++ "/" ++ s)
    |>.filter (fun p => ¬fileExists p)
  if missing.isEmpty then .ok ()
  else .error (.fileNotFound
    ("Script files not found: " ++ String.intercalate ", " missing))

/-- Model of `check_packages_exist(packages_dir, manifest)`. -/
def check_packages_exist (fileExists : String → Bool) (packages_dir : String)
    (manifest : MigrationManifest) : Except Err Unit :=
  let pkgs := (match manifest.package with
      | some p => if p.isEmpty then [] else [p]
      | none => []) ++
    manifest.steps.flatMap (fun step =>
      match step.package with
      | some p => if p.isEmpty then [] else [p]
      | none => [])
  match pkgs.find? (fun p => ¬fileExists (packages_dir ++ "/" ++ p)) with
  | some p => .error (.fileNotFound
      ("Package file not found: " ++ packages_dir ++ "/" ++ p))
  | none => .ok ()

/-- Model of `has_scripts` inside `prepare_environment`: true when any script field
(manifest-level pre/post/verifiers, the two initial script lists, the
initial setup script, or a step-level pre/post/verifiers) is truthy. -/
def has_scripts (manifest : MigrationManifest) : Bool :=
  manifest.pre_scripts.truthy || manifest.post_scripts.truthy ||
  manifest.verifiers.truthy || manifest.initial_pre_scripts.truthy ||
  manifest.initial_post_scripts.truthy ||
  optStrTruthy manifest.initial_setup_script ||
  manifest.steps.any (fun step =>
    step.pre_scripts.truthy || step.post_scripts.truthy ||
    step.verifiers.truthy)

/-- Model of `has_packages` inside `prepare_environment`. -/
def has_packages (manifest : MigrationManifest) : Bool :=
  optStrTruthy manifest.package ||
  manifest.steps.any (fun step => optStrTruthy step.package)

/-- Model of `prepare_environment(scenario_path, manifest)` from
src/upgrade/upgrade.py: fixed temp-data paths, the script existence check
(only when some script is referenced), the package existence check (only
when some package is referenced), then the log directory and installer
paths. The run-unique timestamp suffix of `logs_dir` is abstracted to a
fixed name. -/
def prepare_environment (fileExists : String → Bool) (scenario_path : String)
    (manifest : MigrationManifest) : Except Err Environment :=
  let scripts_check : Except Err (Option String) :=
    if has_scripts manifest then
      let d := scenario_path ++ "/scripts"
      match check_scripts_exist fileExists d manifest with
      | .error e => .error e
      | .ok _ => .ok (some d)
    else .ok none
  match scripts_check with
  | .error e => .error e
  | .ok scripts_dir =>
    let packages_check : Except Err (Option String) :=
      if has_packages manifest then
        let d := scenario_path ++ "/packages"
        match check_packages_exist fileExists d manifest with
        | .error e => .error e
        | .ok _ => .ok (some d)
      else .ok none
    match packages_check with
    | .error e => .error e
    | .ok packages_dir =>
      .ok ⟨"/tmp", "/tmp/new_data", "/tmp/old_data",
        "logs/upgrade_dbms_TIMESTAMP", scripts_dir, packages_dir,
        "db_installer.sh", "src/pgdg_installer.sh"⟩

/-- The phases `run_upgrade` enters after `prepare_environment` succeeds:
container creation/start (`create_docker_manager`), container preparation
(`prepare_container_env`), then the migration itself. -/
inductive RunPhase where
  | createContainer
  | prepareContainerEnv
  | runMigration
deriving Repr, DecidableEq

/-- Model of `run_upgrade(manifest, scenario_path)` from src/upgrade/upgrade.py up
to the hand-off into the container: `prepare_environment` runs first; only
when it returns does the container get created and prepared and the
migration started. On a preparation error nothing else is attempted. -/
def run_upgrade_entry (fileExists : String → Bool) (scenario_path : String)
    (manifest : MigrationManifest) : List RunPhase × Except Err Environment :=
  match prepare_environment fileExists scenario_path manifest with
  | .error e => ([], .error e)
  | .ok env =>
    ([.createContainer, .prepareContainerEnv, .runMigration], .ok env)


/-! ## Concrete fixtures used by counterexamples and witnesses -/

/-- Host filesystem with no files. -/
def fsNone : String → Bool := fun _ => false

/-- Host filesystem where every path exists. -/
def fsAll : String → Bool := fun _ => true

/-- Marker-file oracle: no readable install-path marker. -/
def noMarker : String → Option String := fun _ => none

/-- The environment produced by `prepare_environment` for a manifest with
no scripts and no packages. -/
def envFix : Environment :=
  ⟨"/tmp", "/tmp/new_data", "/tmp/old_data", "logs/upgrade_dbms_TIMESTAMP",
   none, none, "db_installer.sh", "src/pgdg_installer.sh"⟩

/-- A parsed 16.2.1 TTDB version (edition `se`). -/
def verA : DbVersion := ⟨"16.2.1", some "se", "16", "ttdb"⟩

/-- A parsed 17.1.0 TTDB version (edition `se`). -/
def verB : DbVersion := ⟨"17.1.0", some "se", "17", "ttdb"⟩

/-- A parsed 16.4.2 TTDB version (edition `se`): same major as `verA`. -/
def verC : DbVersion := ⟨"16.4.2", some "se", "16", "ttdb"⟩

/-- A `pg_upgrade` step targeting 17.1.0. -/
def stepUp : MigrationStep :=
  ⟨.pg_upgrade, "17.1.0", some "se", none, .nil, .nil, .nil⟩

/-- A `minor` step targeting 16.4.2 with no step-level scripts. -/
def stepMinor : MigrationStep :=
  ⟨.minor, "16.4.2", some "se", none, .nil, .nil, .nil⟩

/-- A script-free TTDB manifest: 16.2.1 initially, one `pg_upgrade` step. -/
def manifestFix : MigrationManifest :=
  ⟨[stepUp], "ttdb", "16.2.1", some "se", none, none, .nil, .nil, .nil, .nil, .nil⟩

/-- Runner state after `create_initial_state` under `envFix` and
`manifestFix`: empty "old" placeholder, installed and initialized 16.2.1
in the "new" slot. -/
def stFix : RunnerState :=
  ⟨⟨none, none, "/tmp/old_data", "logs/upgrade_dbms_TIMESTAMP"⟩,
   ⟨some verA, some "/opt/tantor/db/16/bin", "/tmp/new_data",
    "logs/upgrade_dbms_TIMESTAMP/logs_16.2.1-se"⟩,
   none⟩

/-- The state `prepare_step envFix fsNone noMarker manifestFix stepUp stFix`
returns: the 16.2.1 instance relabeled "old" (now at `/tmp/old_data`), a
freshly installed 17.1.0 in the "new" slot at `/tmp/new_data`. -/
def stFix' : RunnerState :=
  ⟨⟨some verA, some "/opt/tantor/db/16/bin", "/tmp/old_data",
    "logs/upgrade_dbms_TIMESTAMP/logs_16.2.1-se"⟩,
   ⟨some verB, some "/opt/tantor/db/17/bin", "/tmp/new_data",
    "logs/upgrade_dbms_TIMESTAMP/logs_17.1.0-se"⟩,
   some stepUp⟩

/-- The trace of that `prepare_step` call. -/
def opsFix : List Op :=
  [Op.shellRm "/tmp/old_data", Op.shellMv "/tmp/new_data" "/tmp/old_data",
   Op.installDb verB "/tmp/new_data"]

/-! ## Shared characterization lemmas -/

/-- Success characterization of `create_db`: the handle binds the given
version at the given data path with the per-version log directory, and the
trace is the single install. -/
theorem create_db_spec (rm : String → Option String) (ld dp : String)
    (v : DbVersion) (pk : Option String) (db : Database) (ops : List Op)
    (h : create_db rm ld dp v pk = .ok (db, ops)) :
    ∃ bin, db = ⟨some v, some bin, dp, ld ++ "/logs_" ++ v.render⟩
      ∧ ops = [Op.installDb v dp] := by
  unfold create_db at h
  split at h
  · simp at h
  next bin hbin =>
    simp only [Except.ok.injEq, Prod.mk.injEq] at h
    exact ⟨bin, h.1.symm, h.2.symm⟩

/-- Success characterization of `prepare_step`: the returned state keeps
the previous "new" instance as "old" with its data path replaced by the
previous "old" path, installs the parsed target version at `env.new_db`,
and the trace is exactly the `rm`/`mv` pair followed by the install. -/
theorem prepare_step_spec (env : Environment) (fs : String → Bool)
    (rm : String → Option String) (m : MigrationManifest)
    (s : MigrationStep) (st : RunnerState) (ops : List Op)
    (st' : RunnerState)
    (h : prepare_step env fs rm m s st = (ops, .ok st')) :
    ∃ v bin,
      DbVersion.create s.db_version s.db_edition m.db_type = .ok v
      ∧ st' = ⟨{ st.new_db with data_path := st.old_db.data_path },
               ⟨some v, some bin, env.new_db,
                env.logs_dir ++ "/logs_" ++ v.render⟩, some s⟩
      ∧ ops = [Op.shellRm st.old_db.data_path,
               Op.shellMv st.new_db.data_path st.old_db.data_path,
               Op.installDb v env.new_db] := by
  unfold prepare_step at h
  split at h
  · simp at h
  next v hv =>
    dsimp only at h
    split at h
    · simp at h
    next pkg hpkg =>
      split at h
      · simp at h
      next r hr =>
        obtain ⟨bin, hdb, hops⟩ := create_db_spec _ _ _ _ _ _ _ hr
        simp only [Prod.mk.injEq, Except.ok.injEq] at h
        refine ⟨v, bin, hv, ?_, ?_⟩
        · rw [← h.2, hdb]
        · rw [← h.1, hops]; rfl

/-- The trace of `create_initial_state envFix fsNone noMarker manifestFix`:
install 16.2.1 at the new path, force-clean both data directories, initdb
the new cluster. -/
def opsInit : List Op :=
  [Op.installDb verA "/tmp/new_data",
   Op.shellRm "/tmp/new_data", Op.shellMkdir "/tmp/new_data",
   Op.shellChmod "0700" "/tmp/new_data",
   Op.shellChown "postgres:postgres" "/tmp/new_data",
   Op.shellRm "/tmp/old_data", Op.shellMkdir "/tmp/old_data",
   Op.shellChmod "0700" "/tmp/old_data",
   Op.shellChown "postgres:postgres" "/tmp/old_data",
   Op.initdbRun "/tmp/new_data"]

/-- Success characterization of `create_initial_state`. -/
theorem create_initial_state_spec (env : Environment) (fs : String → Bool)
    (rm : String → Option String) (m : MigrationManifest) (ops : List Op)
    (st0 : RunnerState)
    (h : create_initial_state env fs rm m = (ops, .ok st0)) :
    ∃ v bin,
      DbVersion.create m.db_version m.db_edition m.db_type = .ok v
      ∧ st0 = ⟨⟨none, none, env.old_db, env.logs_dir⟩,
               ⟨some v, some bin, env.new_db,
                env.logs_dir ++ "/logs_" ++ v.render⟩, none⟩
      ∧ ops = [Op.installDb v env.new_db] ++ clean_db_directory env.new_db
              ++ clean_db_directory env.old_db ++ [Op.initdbRun env.new_db] := by
  unfold create_initial_state at h
  split at h
  · simp at h
  next v hv =>
    dsimp only at h
    split at h
    · simp at h
    next pkg hpkg =>
      split at h
      · simp at h
      next r hr =>
        obtain ⟨bin, hdb, hops⟩ := create_db_spec _ _ _ _ _ _ _ hr
        simp only [Prod.mk.injEq, Except.ok.injEq] at h
        refine ⟨v, bin, hv, ?_, ?_⟩
        · rw [← h.2, hdb]
        · rw [← h.1, hops, hdb]
          simp [List.append_assoc]

/-- C1 (amended): after a successful `prepare_step`, the "old" slot's data
path equals the prior "old" slot's path — the trace starts with the
`rm old` / `mv new old` pair that moves the prior "new" directory's
contents there — and the "new" slot's data path is the environment's fixed
new-data location; so under the run invariant (new slot at `env.new_db`)
both slots keep exactly the paths they had: the two physical paths are
conserved, none lost or duplicated, but they are NOT exchanged between the
slots. -/
theorem C1_prepare_step_path_conservation (env : Environment)
    (fs : String → Bool) (rm : String → Option String)
    (m : MigrationManifest) (s : MigrationStep) (st : RunnerState)
    (ops : List Op) (st' : RunnerState)
    (h : prepare_step env fs rm m s st = (ops, .ok st')) :
    st'.old_db.data_path = st.old_db.data_path
    ∧ st'.new_db.data_path = env.new_db
    ∧ ops.take 2 = [Op.shellRm st.old_db.data_path,
        Op.shellMv st.new_db.data_path st.old_db.data_path]
    ∧ (st.new_db.data_path = env.new_db →
        st'.old_db.data_path = st.old_db.data_path
        ∧ st'.new_db.data_path = st.new_db.data_path) := by
  obtain ⟨v, bin, hv, hst, hops⟩ :=
    prepare_step_spec env fs rm m s st ops st' h
  subst hst
  subst hops
  exact ⟨rfl, rfl, rfl, fun hinv => ⟨rfl, hinv.symm⟩⟩

/-- C1 counterexample: with the old slot at `/tmp/old_data` and the new
slot at `/tmp/new_data`, `prepare_step` leaves the old slot at
`/tmp/old_data` — NOT at the path previously used by the new slot — and
the new slot at `/tmp/new_data` — NOT at the path vacated by the prior
old slot: the paths are conserved but never relabeled across slots. -/
theorem C1_counterexample :
    prepare_step envFix fsNone noMarker manifestFix stepUp stFix
      = (opsFix, .ok stFix')
    ∧ stFix'.old_db.data_path ≠ stFix.new_db.data_path
    ∧ stFix'.new_db.data_path ≠ stFix.old_db.data_path := by decide

/-- Closed instantiation of `C1_prepare_step_path_conservation` at the
concrete fixture run. -/
theorem C1_witness :
    prepare_step envFix fsNone noMarker manifestFix stepUp stFix
      = (opsFix, .ok stFix')
    ∧ (stFix'.old_db.data_path = stFix.old_db.data_path
       ∧ stFix'.new_db.data_path = envFix.new_db
       ∧ opsFix.take 2 = [Op.shellRm stFix.old_db.data_path,
           Op.shellMv stFix.new_db.data_path stFix.old_db.data_path]
       ∧ (stFix.new_db.data_path = envFix.new_db →
           stFix'.old_db.data_path = stFix.old_db.data_path
           ∧ stFix'.new_db.data_path = stFix.new_db.data_path)) :=
  ⟨by decide,
   C1_prepare_step_path_conservation envFix fsNone noMarker manifestFix
     stepUp stFix opsFix stFix' (by decide)⟩

/-- C2 (confirmed): at the end of `create_initial_state` the "new" slot
sits at `env.new_db` and the "old" placeholder at `env.old_db`; at the end
of EVERY `prepare_step` call the "old" slot is exactly the previous "new"
instance (the version the previous step produced, binaries included) with
its data path moved to the old location, while the "new" slot holds the
freshly parsed target version, was installed (an install op for it at
`env.new_db` is in the trace) but never initialized (no initdb op in the
trace), and its data path is the constant `env.new_db` — the same physical
mount path as every preceding "new" slot. -/
theorem C2_runner_invariant (env : Environment) (fs : String → Bool)
    (rm : String → Option String) (m : MigrationManifest) :
    (∀ ops0 st0, create_initial_state env fs rm m = (ops0, .ok st0) →
        st0.new_db.data_path = env.new_db
        ∧ st0.old_db.data_path = env.old_db)
    ∧ (∀ s st ops st', prepare_step env fs rm m s st = (ops, .ok st') →
        st'.old_db = { st.new_db with data_path := st.old_db.data_path }
        ∧ st'.new_db.data_path = env.new_db
        ∧ (∃ v, DbVersion.create s.db_version s.db_edition m.db_type = .ok v
             ∧ st'.new_db.version = some v
             ∧ Op.installDb v env.new_db ∈ ops)
        ∧ ∀ p, Op.initdbRun p ∉ ops) := by
  constructor
  · intro ops0 st0 h
    obtain ⟨v, bin, hv, hst, hops⟩ :=
      create_initial_state_spec env fs rm m ops0 st0 h
    subst hst
    exact ⟨rfl, rfl⟩
  · intro s st ops st' h
    obtain ⟨v, bin, hv, hst, hops⟩ :=
      prepare_step_spec env fs rm m s st ops st' h
    subst hst
    subst hops
    refine ⟨rfl, rfl, ⟨v, hv, rfl, by simp⟩, ?_⟩
    intro p hp
    simp [List.mem_cons] at hp

/-- Closed instantiation of `C2_runner_invariant` at the fixture run. -/
theorem C2_witness :
    (create_initial_state envFix fsNone noMarker manifestFix
        = (opsInit, .ok stFix)
      ∧ stFix.new_db.data_path = envFix.new_db
      ∧ stFix.old_db.data_path = envFix.old_db)
    ∧ (prepare_step envFix fsNone noMarker manifestFix stepUp stFix
        = (opsFix, .ok stFix')
      ∧ stFix'.old_db = { stFix.new_db with data_path := stFix.old_db.data_path }
      ∧ stFix'.new_db.data_path = envFix.new_db
      ∧ stFix'.new_db.version = some verB
      ∧ Op.installDb verB envFix.new_db ∈ opsFix
      ∧ Op.initdbRun "/tmp/new_data" ∉ opsFix) := by
  constructor
  · exact ⟨by decide,
      (C2_runner_invariant envFix fsNone noMarker manifestFix).1 opsInit
        stFix (by decide)⟩
  · have h := (C2_runner_invariant envFix fsNone noMarker manifestFix).2
      stepUp stFix opsFix stFix' (by decide)
    exact ⟨by decide, h.1, h.2.1, by decide, by decide,
      h.2.2.2 "/tmp/new_data"⟩

/-- A manifest exercising the post-script fallback: generic and
minor-specific post scripts both present at manifest level. -/
def manifestPost : MigrationManifest :=
  ⟨[stepMinor], "ttdb", "16.2.1", some "se", none, none,
   .nil, .strs ["initial_post.sql"], .nil, .strs ["generic_post.sql"], .nil⟩

/-- C3 (code bug in the source): for a MinorUpgrade step with no
step-level post scripts, the EFFECTIVE `run_post_step` (the second
definition of that method, which shadows the first when Python evaluates
the class body) runs the manifest's generic `post_scripts`; the
minor-aware first definition — the behaviour the claim and the module's
own field documentation describe — would have run `initial_post_scripts`.
The two selections disagree on this input, so `initial_post_scripts` are
dead in the shipped code. -/
theorem C3_post_step_shadowing :
    select_post_scripts manifestPost stepMinor
      = ScriptList.strs ["generic_post.sql"]
    ∧ select_post_scripts_shadowed manifestPost stepMinor
      = ScriptList.strs ["initial_post.sql"]
    ∧ run_post_step manifestPost stepMinor (some verC)
      = [Op.startDb (some verC), Op.runSql "generic_post.sql",
         Op.stopDb (some verC)]
    ∧ run_post_step_shadowed manifestPost stepMinor (some verC)
      = [Op.startDb (some verC), Op.runSql "initial_post.sql",
         Op.stopDb (some verC)]
    ∧ select_post_scripts manifestPost stepMinor
      ≠ select_post_scripts_shadowed manifestPost stepMinor := by decide

/-- No operation issued by `run_scripts` mutates a directory: it only
starts the database, runs SQL/shell scripts, and stops the database. -/
theorem run_scripts_no_dir_mutation (ver : Option DbVersion)
    (scripts : ScriptList) :
    ∀ op ∈ run_scripts ver scripts, op.isDirMutation = false := by
  intro op hop
  unfold run_scripts at hop
  split at hop
  · simp at hop
  · split at hop
    · simp at hop
    next l _ =>
      simp only [List.mem_cons, List.mem_append, List.mem_map,
        List.not_mem_nil, or_false] at hop
      rcases hop with h | ⟨s, hs, rfl⟩ | h
      · subst h; rfl
      · unfold scriptOp; split <;> rfl
      · subst h; rfl

/-- C4 (confirmed, scoped to the MinorUpgrade execution `run_minor`;
`prepare_step`'s role swap precedes every strategy by design): when the
old and new major versions differ, `run_minor` fails with the
`ValueError`-class error and its trace contains no directory mutation at
all (only the pre-step script bracket ran); when the majors are equal it
succeeds and its trace is exactly: pre-step scripts, delete the new data
directory, move the old data directory onto the new path, recreate an
empty old directory with fixed mode and ownership, smoke-start and stop
the new instance, post-step scripts. -/
theorem C4_run_minor_major_guard (m : MigrationManifest) (st : RunnerState)
    (step : MigrationStep) (vo vn : DbVersion)
    (hstep : st.step = some step)
    (ho : st.old_db.version = some vo)
    (hn : st.new_db.version = some vn) :
    (vo.major ≠ vn.major →
       (run_minor m st).2
         = .error (.valueError "Minor upgrade: major version mismatch")
       ∧ ∀ op ∈ (run_minor m st).1, op.isDirMutation = false)
    ∧ (vo.major = vn.major →
       (run_minor m st).2 = .ok ()
       ∧ (run_minor m st).1
         = run_pre_step m step (some vn)
           ++ [Op.shellRm st.new_db.data_path,
               Op.shellMv st.old_db.data_path st.new_db.data_path,
               Op.shellMkdir st.old_db.data_path,
               Op.shellChmod "0700" st.old_db.data_path,
               Op.shellChown "postgres:postgres" st.old_db.data_path,
               Op.startDb (some vn), Op.stopDb (some vn)]
           ++ run_post_step m step (some vn)) := by
  constructor
  · intro hne
    have hrun : run_minor m st
        = (run_pre_step m step (some vn),
           .error (.valueError "Minor upgrade: major version mismatch")) := by
      unfold run_minor
      rw [hstep, hn, ho]
      simp only [if_pos hne]
    rw [hrun]
    exact ⟨rfl, run_scripts_no_dir_mutation (some vn) _⟩
  · intro heq
    have hrun : run_minor m st
        = (run_pre_step m step (some vn)
            ++ ([Op.shellRm st.new_db.data_path,
                 Op.shellMv st.old_db.data_path st.new_db.data_path,
                 Op.shellMkdir st.old_db.data_path,
                 Op.shellChmod "0700" st.old_db.data_path,
                 Op.shellChown "postgres:postgres" st.old_db.data_path]
              ++ [Op.startDb (some vn), Op.stopDb (some vn)])
            ++ run_post_step m step (some vn), .ok ()) := by
      unfold run_minor
      rw [hstep, hn, ho]
      simp only [heq, ne_eq, not_true_eq_false, if_false]
      simp [List.append_assoc]
    rw [hrun]
    exact ⟨rfl, by simp [List.append_assoc]⟩

/-- Runner state going into a minor step whose target major (17) differs
from the old instance's major (16). -/
def stMinorBad : RunnerState :=
  ⟨⟨some verA, some "/opt/tantor/db/16/bin", "/tmp/old_data",
    "logs/upgrade_dbms_TIMESTAMP/logs_16.2.1-se"⟩,
   ⟨some verB, some "/opt/tantor/db/17/bin", "/tmp/new_data",
    "logs/upgrade_dbms_TIMESTAMP/logs_17.1.0-se"⟩,
   some ⟨.minor, "17.1.0", some "se", none, .nil, .nil, .nil⟩⟩

/-- Runner state going into a minor step within major 16. -/
def stMinorOk : RunnerState :=
  ⟨⟨some verA, some "/opt/tantor/db/16/bin", "/tmp/old_data",
    "logs/upgrade_dbms_TIMESTAMP/logs_16.2.1-se"⟩,
   ⟨some verC, some "/opt/tantor/db/16/bin", "/tmp/new_data",
    "logs/upgrade_dbms_TIMESTAMP/logs_16.4.2-se"⟩,
   some stepMinor⟩

/-- Closed instantiation of `C4_run_minor_major_guard` at a cross-major
minor step (16 → 17: error, no directory mutation) and at a same-major
minor step (16 → 16: success with the full directory/smoke trace). -/
theorem C4_witness :
    (stMinorBad.step = some ⟨.minor, "17.1.0", some "se", none, .nil, .nil, .nil⟩
     ∧ (run_minor manifestPost stMinorBad).2
         = .error (.valueError "Minor upgrade: major version mismatch")
     ∧ Op.shellRm "/tmp/new_data" ∉ (run_minor manifestPost stMinorBad).1)
    ∧ ((run_minor manifestPost stMinorOk).2 = .ok ()
     ∧ (run_minor manifestPost stMinorOk).1
         = run_pre_step manifestPost stepMinor (some verC)
           ++ [Op.shellRm "/tmp/new_data",
               Op.shellMv "/tmp/old_data" "/tmp/new_data",
               Op.shellMkdir "/tmp/old_data",
               Op.shellChmod "0700" "/tmp/old_data",
               Op.shellChown "postgres:postgres" "/tmp/old_data",
               Op.startDb (some verC), Op.stopDb (some verC)]
           ++ run_post_step manifestPost stepMinor (some verC)) := by
  constructor
  · have h := (C4_run_minor_major_guard manifestPost stMinorBad
      ⟨.minor, "17.1.0", some "se", none, .nil, .nil, .nil⟩ verA verB
      (by decide) (by decide) (by decide)).1 (by decide)
    refine ⟨by decide, h.1, ?_⟩
    intro hmem
    have := h.2 _ hmem
    simp [Op.isDirMutation] at this
  · have h := (C4_run_minor_major_guard manifestPost stMinorOk
      stepMinor verA verC (by decide) (by decide) (by decide)).2 (by decide)
    exact ⟨h.1, by rw [h.2]; decide⟩

/-- Behaviour of a psql run that itself exits nonzero while streaming an
error line. -/
def behBad : ExecBehavior := ⟨1, ["psql: ERROR: relation missing"]⟩

/-- Behaviour of a psql run that exits zero but streamed an error line. -/
def behOkMarker : ExecBehavior := ⟨0, ["ERROR: duplicate key"]⟩

/-- Behaviour of a psql run that exits zero and streams nothing. -/
def behSilent : ExecBehavior := ⟨0, []⟩

/-- Behaviour of a clean psql run (zero exit, unremarkable output). -/
def behClean : ExecBehavior := ⟨0, ["CREATE TABLE"]⟩

/-- C5 counterexample: when the SQL client itself exits nonzero (here 1)
the command error from `run_pg_binary` propagates and the log scan never
happens — even though the freshly appended log contains the `ERROR:`
marker, the outcome is the command error, not the distinct
script-execution error the claim promises for a scan performed
"regardless of the client's own exit code". -/
theorem C5_counterexample :
    (run_sql_script "/scripts/load.sql" behBad (some [])).1
      = some ["psql: ERROR: relation missing"]
    ∧ lineHasErrorMarker "psql: ERROR: relation missing" = true
    ∧ (run_sql_script "/scripts/load.sql" behBad (some [])).2
      = .error (.commandError 1 "psql")
    ∧ (run_sql_script "/scripts/load.sql" behBad (some [])).2
      ≠ .error (.runtimeError
          "Error found during execution of /scripts/load.sql") := by decide

/-- C5 (amended): after the SQL client reports success (exit code 0), the
resulting log file — if it exists — is scanned line by line for the
`ERROR:` marker and a hit raises the distinct script-execution
`RuntimeError` even though the client succeeded; a missing log file is
only a warning (the call returns success). When the client itself exits
nonzero, that command error is raised instead and no scan takes place. -/
theorem C5_run_sql_script_scan (script : String) (beh : ExecBehavior)
    (log : Option (List String)) :
    (beh.exit_code ≠ 0 →
       (run_sql_script script beh log).2
         = .error (.commandError beh.exit_code "psql"))
    ∧ (beh.exit_code = 0 →
       (∀ lines, appendLog log beh.output = some lines →
          (run_sql_script script beh log).2
            = if lines.any lineHasErrorMarker then
                .error (.runtimeError
                  ("Error found during execution of " ++ script))
              else .ok ())
       ∧ (appendLog log beh.output = none →
          (run_sql_script script beh log).2 = .ok ())) := by
  constructor
  · intro hne
    simp [run_sql_script, run_pg_binary, hne]
  · intro hz
    constructor
    · intro lines hl
      simp [run_sql_script, run_pg_binary, hz, hl]
      split <;> simp_all
    · intro hl
      simp [run_sql_script, run_pg_binary, hz, hl]

/-- Closed instantiation of `C5_run_sql_script_scan`: a zero-exit psql run
whose log contains the marker fails with the script-execution error; a
zero-exit run that created no log file succeeds with only a warning. -/
theorem C5_witness :
    (run_sql_script "/scripts/load.sql" behOkMarker none).2
      = .error (.runtimeError "Error found during execution of /scripts/load.sql")
    ∧ (run_sql_script "/scripts/empty.sql" behSilent none).2 = .ok () := by
  constructor
  · have h := ((C5_run_sql_script_scan "/scripts/load.sql" behOkMarker
      none).2 (by decide)).1 ["ERROR: duplicate key"] (by decide)
    rw [h]
    decide
  · exact ((C5_run_sql_script_scan "/scripts/empty.sql" behSilent
      none).2 (by decide)).2 (by decide)

/-- C10 (confirmed): two `Database` handles created for the same version
under the same run log root share one psql log file name
(`logs_{version}/psql_{version}.log`), whatever their data paths or
packages; and because each run appends to the file and `run_sql_script`
scans the WHOLE file after a zero-exit run, a marker line written by any
earlier invocation makes every later `run_sql_script` for that version
fail, no matter how clean the new output is. -/
theorem C10_shared_psql_log_poisoning (ld dp1 dp2 : String) (v : DbVersion)
    (pk1 pk2 : Option String) (rm1 rm2 : String → Option String)
    (db1 db2 : Database) (o1 o2 : List Op)
    (h1 : create_db rm1 ld dp1 v pk1 = .ok (db1, o1))
    (h2 : create_db rm2 ld dp2 v pk2 = .ok (db2, o2))
    (script : String) (beh : ExecBehavior) (prior : List String)
    (hmark : prior.any lineHasErrorMarker = true)
    (hexit : beh.exit_code = 0) :
    binary_log_file db1 "psql" = binary_log_file db2 "psql"
    ∧ (run_sql_script script beh (some prior)).2
        = .error (.runtimeError
            ("Error found during execution of " ++ script)) := by
  obtain ⟨b1, hdb1, _⟩ := create_db_spec _ _ _ _ _ _ _ h1
  obtain ⟨b2, hdb2, _⟩ := create_db_spec _ _ _ _ _ _ _ h2
  constructor
  · rw [hdb1, hdb2]
    rfl
  · rw [List.any_eq_true] at hmark
    simp [run_sql_script, run_pg_binary, hexit, appendLog, List.any_append]
    rw [if_pos (Or.inl hmark)]

/-- Closed instantiation of `C10_shared_psql_log_poisoning`: instances at
different data paths for version 16.2.1 share the log name, and a clean
zero-exit run over a log already containing a marker line fails. -/
theorem C10_witness :
    (create_db noMarker "logs/upgrade_dbms_TIMESTAMP" "/tmp/new_data" verA
        none
      = .ok (⟨some verA, some "/opt/tantor/db/16/bin", "/tmp/new_data",
          "logs/upgrade_dbms_TIMESTAMP/logs_16.2.1-se"⟩,
        [Op.installDb verA "/tmp/new_data"]))
    ∧ binary_log_file ⟨some verA, some "/opt/tantor/db/16/bin",
        "/tmp/new_data", "logs/upgrade_dbms_TIMESTAMP/logs_16.2.1-se"⟩ "psql"
      = binary_log_file ⟨some verA, some "/opt/tantor/db/16/bin",
        "/tmp/old_data", "logs/upgrade_dbms_TIMESTAMP/logs_16.2.1-se"⟩ "psql"
    ∧ (run_sql_script "/scripts/clean.sql" behClean
        (some ["ERROR: old poison"])).2
      = .error (.runtimeError
          "Error found during execution of /scripts/clean.sql") := by
  have h := C10_shared_psql_log_poisoning "logs/upgrade_dbms_TIMESTAMP"
    "/tmp/new_data" "/tmp/old_data" verA none none noMarker noMarker
    ⟨some verA, some "/opt/tantor/db/16/bin", "/tmp/new_data",
      "logs/upgrade_dbms_TIMESTAMP/logs_16.2.1-se"⟩
    ⟨some verA, some "/opt/tantor/db/16/bin", "/tmp/old_data",
      "logs/upgrade_dbms_TIMESTAMP/logs_16.2.1-se"⟩
    [Op.installDb verA "/tmp/new_data"] [Op.installDb verA "/tmp/old_data"]
    (by decide) (by decide) "/scripts/clean.sql" behClean
    ["ERROR: old poison"] (by decide) (by decide)
  exact ⟨by decide, h.1, h.2⟩

/-- C6 counterexample: during a migration run the TTDB installer is
executed by `run_db_installer` through `shell` with the default
`check_code=True`; exit code 127 from it raises the command error — it is
NOT downgraded to success — even though the command line mentions
`db_installer.sh` (so the `exec_command` exemption would have matched,
had that perf-runner path been used). -/
theorem C6_counterexample :
    run_db_installer "db_installer.sh" "src/pgdg_installer.sh" verA none
        "ttdb" 0 none 127 ""
      = .error (.commandError 127
          "db_installer.sh --edition=se --maintenance-version=16.2.1 --major-version=16")
    ∧ charsContain "db_installer.sh".data
        (shlexJoin (installer_command "db_installer.sh"
          "src/pgdg_installer.sh" verA none "ttdb")).data = true
    ∧ exec_command
        "db_installer.sh --edition=se --maintenance-version=16.2.1 --major-version=16"
        127 = 0 := by decide

/-- C6 (amended): every in-environment command a migration run issues goes
through `shell`, where any nonzero exit raises the command error whenever
`check_code` is true (the default); callers that pass `check_code=False`
get the exit code back and handle it themselves; no exit code is ever
downgraded there. The 127-from-`db_installer.sh` downgrade exists only in
`exec_command`, the performance-runner entry point, which the migration
run never uses. -/
theorem C6_exit_code_policy (cmd : List String) (code : Int) (out : String) :
    (code ≠ 0 → shell cmd true code out
        = .error (.commandError code (shlexJoin cmd)))
    ∧ (code = 0 → shell cmd true code out = .ok ⟨code, out⟩)
    ∧ shell cmd false code out = .ok ⟨code, out⟩
    ∧ (∀ s : String, exec_command s 127
        = if charsContain "db_installer.sh".data s.data then 0 else 127) := by
  refine ⟨fun h => ?_, fun h => ?_, ?_, fun s => ?_⟩
  · simp [shell, h]
  · simp [shell, h]
  · simp [shell]
  · by_cases hc : charsContain "db_installer.sh".data s.data
    · simp [exec_command, hc]
    · simp [exec_command, hc]

/-- Closed instantiation of `C6_exit_code_policy` at the TTDB installer
command exiting 127. -/
theorem C6_witness :
    ((127 : Int) ≠ 0
     ∧ shell (installer_command "db_installer.sh" "src/pgdg_installer.sh"
          verA none "ttdb") true 127 ""
       = .error (.commandError 127 (shlexJoin (installer_command
           "db_installer.sh" "src/pgdg_installer.sh" verA none "ttdb"))))
    ∧ exec_command "db_installer.sh --edition=se" 127 = 0 := by
  refine ⟨⟨by decide, (C6_exit_code_policy (installer_command
    "db_installer.sh" "src/pgdg_installer.sh" verA none "ttdb") 127
    "").1 (by decide)⟩, ?_⟩
  have h := (C6_exit_code_policy [] 127 "").2.2.2 "db_installer.sh --edition=se"
  rw [h]
  decide

/-- Membership in a normalized script field implies the field is truthy. -/
theorem truthy_of_mem_iter {s : String} {sl : ScriptList}
    (h : s ∈ iter_script_list sl) : sl.truthy = true := by
  cases sl with
  | nil => simp [iter_script_list] at h
  | str t =>
    simp only [iter_script_list] at h
    split at h
    · simp at h
    next hemp => simp_all [ScriptList.truthy]
  | strs l =>
    simp only [iter_script_list] at h
    split at h
    · simp at h
    next hemp => simp_all [ScriptList.truthy]

/-- A script yielded by the existence check's iterator makes `has_scripts`
true (so `prepare_environment` does run the check on it). -/
theorem has_scripts_of_checked {m : MigrationManifest} {s : String}
    (h : s ∈ iterCheckedScripts m) : has_scripts m = true := by
  unfold iterCheckedScripts at h
  unfold has_scripts
  simp only [List.mem_append, List.mem_flatMap] at h
  rcases h with ((h | h) | h) | ⟨step, hstep, h⟩
  · simp [truthy_of_mem_iter h]
  · simp [truthy_of_mem_iter h]
  · simp [truthy_of_mem_iter h]
  · have hact : (step.pre_scripts.truthy || step.post_scripts.truthy
        || step.verifiers.truthy) = true := by
      rcases h with (h' | h') | h'
      · simp [truthy_of_mem_iter h']
      · simp [truthy_of_mem_iter h']
      · simp [truthy_of_mem_iter h']
    have hany : m.steps.any (fun step => step.pre_scripts.truthy
        || step.post_scripts.truthy || step.verifiers.truthy) = true :=
      List.any_eq_true.mpr ⟨step, hstep, hact⟩
    simp [hany]

/-- When any checked, non-empty script name resolves to a missing file,
`check_scripts_exist` raises the file-not-found error. -/
theorem check_scripts_exist_missing (fs : String → Bool) (d : String)
    (m : MigrationManifest) (s : String)
    (hs : s ∈ iterCheckedScripts m) (hne : s.isEmpty = false)
    (hmiss : fs (d ++ "/" ++ s) = false) :
    ∃ msg, check_scripts_exist fs d m = .error (.fileNotFound msg) := by
  have hmem : (d ++ "/" ++ s) ∈ ((iterCheckedScripts m).filter
      (fun t => ¬t.isEmpty)).map (fun t => d ++ "/" ++ t) :=
    List.mem_map.mpr ⟨s, List.mem_filter.mpr ⟨hs, by simp [hne]⟩, rfl⟩
  have hmem2 : (d ++ "/" ++ s) ∈ (((iterCheckedScripts m).filter
      (fun t => ¬t.isEmpty)).map (fun t => d ++ "/" ++ t)).filter
      (fun p => ¬fs p) :=
    List.mem_filter.mpr ⟨hmem, by simp [hmiss]⟩
  simp only [check_scripts_exist]
  split
  next hempty =>
    rw [List.isEmpty_iff] at hempty
    rw [hempty] at hmem2
    simp at hmem2
  next => exact ⟨_, rfl⟩

/-- C7 (amended): a missing file behind any name listed in the checked
script categories — manifest-level or step-level `pre_scripts`,
`post_scripts`, `verifiers` — makes `prepare_environment` raise the
file-not-found error, so `run_upgrade` stops before any container or
database phase is entered. (The counterexample shows the unchecked
categories: `initial_pre_scripts`, `initial_post_scripts`,
`initial_setup_script`.) -/
theorem C7_missing_checked_script (fs : String → Bool) (scenario : String)
    (m : MigrationManifest) (s : String)
    (hs : s ∈ iterCheckedScripts m) (hne : s.isEmpty = false)
    (hmiss : fs (scenario ++ "/scripts" ++ "/" ++ s) = false) :
    (∃ msg, prepare_environment fs scenario m
        = .error (.fileNotFound msg))
    ∧ (run_upgrade_entry fs scenario m).1 = []
    ∧ (∃ msg, (run_upgrade_entry fs scenario m).2
        = .error (.fileNotFound msg)) := by
  have hhs := has_scripts_of_checked hs
  obtain ⟨msg, herr⟩ := check_scripts_exist_missing fs
    (scenario ++ "/scripts") m s hs hne hmiss
  have hp : prepare_environment fs scenario m
      = .error (.fileNotFound msg) := by
    unfold prepare_environment
    simp [hhs, herr]
  refine ⟨⟨msg, hp⟩, ?_, ⟨msg, ?_⟩⟩
  · unfold run_upgrade_entry
    rw [hp]
  · unfold run_upgrade_entry
    rw [hp]

/-- A manifest whose only script reference is a minor-stage pre script
(`initial_pre_scripts`) that does not exist on disk. -/
def manifestInitialPre : MigrationManifest :=
  ⟨[stepMinor], "ttdb", "16.2.1", some "se", none, none,
   .str "missing_pre.sql", .nil, .nil, .nil, .nil⟩

/-- A manifest whose only script reference is a manifest-level pre script
that does not exist on disk. -/
def manifestPreMissing : MigrationManifest :=
  ⟨[stepMinor], "ttdb", "16.2.1", some "se", none, none,
   .nil, .nil, .str "missing_pre.sql", .nil, .nil⟩

/-- C7 counterexample: a manifest referencing the pre script
`missing_pre.sql` for its minor step through `initial_pre_scripts` — the
script `select_pre_scripts` WILL hand to the step's pre stage — passes
`prepare_environment` untouched on a filesystem with no files at all
(`check_scripts_exist` never iterates the initial script fields), and the
run proceeds into the container phases instead of raising
file-not-found first. -/
theorem C7_counterexample :
    manifestInitialPre.initial_pre_scripts = ScriptList.str "missing_pre.sql"
    ∧ select_pre_scripts manifestInitialPre stepMinor
      = ScriptList.str "missing_pre.sql"
    ∧ fsNone "scenario/scripts/missing_pre.sql" = false
    ∧ prepare_environment fsNone "scenario" manifestInitialPre
      = .ok ⟨"/tmp", "/tmp/new_data", "/tmp/old_data",
          "logs/upgrade_dbms_TIMESTAMP", some "scenario/scripts", none,
          "db_installer.sh", "src/pgdg_installer.sh"⟩
    ∧ (run_upgrade_entry fsNone "scenario" manifestInitialPre).1
      = [RunPhase.createContainer, RunPhase.prepareContainerEnv,
         RunPhase.runMigration] := by decide

/-- Closed instantiation of `C7_missing_checked_script` at a manifest
whose manifest-level `pre_scripts` name a missing file. -/
theorem C7_witness :
    ("missing_pre.sql" ∈ iterCheckedScripts manifestPreMissing
     ∧ "missing_pre.sql".isEmpty = false
     ∧ fsNone ("scenario" ++ "/scripts" ++ "/" ++ "missing_pre.sql") = false)
    ∧ (run_upgrade_entry fsNone "scenario" manifestPreMissing).1 = [] :=
  ⟨⟨by decide, by decide, rfl⟩,
   (C7_missing_checked_script fsNone "scenario" manifestPreMissing
     "missing_pre.sql" (by decide) (by decide) rfl).2.1⟩

/-- The digit span of a digit run followed by a non-digit (or nothing) is
exactly that run. -/
theorem spanDigits_append (ds rest : List Char)
    (hds : ∀ c ∈ ds, c.isDigit = true)
    (hrest : ∀ c, rest.head? = some c → c.isDigit = false) :
    spanDigits (ds ++ rest) = (ds, rest) := by
  induction ds with
  | nil =>
    cases rest with
    | nil => rfl
    | cons c t =>
      have hc := hrest c rfl
      simp [spanDigits, hc]
  | cons c t ih =>
    have hc := hds c (by simp)
    have ih' := ih (fun x hx => hds x (by simp [hx]))
    simp [spanDigits, hc, ih']

/-- C8 (confirmed): every pgdg version string of the form X.Y or X.Y.Z
(X, Y, Z nonempty digit runs) parses successfully, the stored version is
canonicalized to exactly X.Y — the patch component is discarded, so both
inputs yield the SAME descriptor and callers cannot assume the returned
version equals the input — and the rendering of that descriptor is exactly
`X.Y-pgdg`, containing no patch digit. -/
theorem C8_pgdg_normalization (X Y Z : List Char) (e : Option String)
    (hX : X ≠ [] ∧ ∀ c ∈ X, c.isDigit = true)
    (hY : Y ≠ [] ∧ ∀ c ∈ Y, c.isDigit = true)
    (hZ : Z ≠ [] ∧ ∀ c ∈ Z, c.isDigit = true) :
    DbVersion.create (String.mk (X ++ '.' :: (Y ++ '.' :: Z))) e "pgdg"
      = .ok ⟨String.mk X ++ "." ++ String.mk Y, none, String.mk X, "pgdg"⟩
    ∧ DbVersion.create (String.mk (X ++ '.' :: Y)) e "pgdg"
      = .ok ⟨String.mk X ++ "." ++ String.mk Y, none, String.mk X, "pgdg"⟩
    ∧ DbVersion.render
        ⟨String.mk X ++ "." ++ String.mk Y, none, String.mk X, "pgdg"⟩
      = String.mk X ++ "." ++ String.mk Y ++ "-pgdg" := by
  have hXe : X.isEmpty = false := by
    cases X with
    | nil => exact absurd rfl hX.1
    | cons a b => rfl
  have hYe : Y.isEmpty = false := by
    cases Y with
    | nil => exact absurd rfl hY.1
    | cons a b => rfl
  have hZe : Z.isEmpty = false := by
    cases Z with
    | nil => exact absurd rfl hZ.1
    | cons a b => rfl
  have hdot : ∀ (w : List Char) (c : Char),
      ('.' :: w).head? = some c → c.isDigit = false := by
    intro w c hc
    injection hc with hc
    subst hc
    decide
  have h3 : spanDigits Z = (Z, []) := by
    have := spanDigits_append Z [] hZ.2 (fun c hc => by simp at hc)
    simpa using this
  have h2 : spanDigits (Y ++ '.' :: Z) = (Y, '.' :: Z) :=
    spanDigits_append Y ('.' :: Z) hY.2 (hdot Z)
  have h2' : spanDigits Y = (Y, []) := by
    have := spanDigits_append Y [] hY.2 (fun c hc => by simp at hc)
    simpa using this
  have h1 : spanDigits (X ++ '.' :: (Y ++ '.' :: Z))
      = (X, '.' :: (Y ++ '.' :: Z)) :=
    spanDigits_append X ('.' :: (Y ++ '.' :: Z)) hX.2 (hdot _)
  have h1' : spanDigits (X ++ '.' :: Y) = (X, '.' :: Y) :=
    spanDigits_append X ('.' :: Y) hX.2 (hdot _)
  have hm1 : pgdgVersionMatch (X ++ '.' :: (Y ++ '.' :: Z)) = some (X, Y) := by
    simp [pgdgVersionMatch, h1, h2, h3, hXe, hYe, hZe]
  have hm2 : pgdgVersionMatch (X ++ '.' :: Y) = some (X, Y) := by
    simp [pgdgVersionMatch, h1', h2', hXe, hYe]
  refine ⟨?_, ?_, ?_⟩
  · simp [DbVersion.create, hm1]
  · simp [DbVersion.create, hm2]
  · simp [DbVersion.render]

/-- Closed instantiation of `C8_pgdg_normalization` at 16.6.2 / 16.6:
both parse to the 16.6 descriptor, rendered `16.6-pgdg`. -/
theorem C8_witness :
    ((['1', '6'] : List Char) ≠ []
      ∧ ∀ c ∈ (['1', '6'] : List Char), c.isDigit = true)
    ∧ DbVersion.create
        (String.mk (['1', '6'] ++ '.' :: (['6'] ++ '.' :: ['2'])))
        (some "se") "pgdg"
      = .ok ⟨String.mk ['1', '6'] ++ "." ++ String.mk ['6'], none,
          String.mk ['1', '6'], "pgdg"⟩
    ∧ DbVersion.create (String.mk (['1', '6'] ++ '.' :: ['6']))
        (some "se") "pgdg"
      = .ok ⟨String.mk ['1', '6'] ++ "." ++ String.mk ['6'], none,
          String.mk ['1', '6'], "pgdg"⟩ := by
  have h := C8_pgdg_normalization ['1', '6'] ['6'] ['2'] (some "se")
    (by decide) (by decide) (by decide)
  exact ⟨by decide, h.1, h.2.1⟩

/-- C9 (confirmed): for product type pgdg the parser ignores the edition
argument entirely — any supplied edition yields the same descriptor as no
edition, and a successfully parsed pgdg descriptor always carries
`edition = none`. -/
theorem C9_pgdg_edition_discarded (v : String) (e : Option String) :
    DbVersion.create v e "pgdg" = DbVersion.create v none "pgdg"
    ∧ ∀ d, DbVersion.create v e "pgdg" = .ok d → d.edition = none := by
  have hne : ¬(("pgdg" : String) = "ttdb") := by decide
  constructor
  · simp only [DbVersion.create, if_neg hne]
  · intro d hd
    unfold DbVersion.create at hd
    rw [if_neg hne, if_pos rfl] at hd
    cases hm : pgdgVersionMatch v.data with
    | none => rw [hm] at hd; exact absurd hd (by simp)
    | some p =>
      rw [hm] at hd
      simp only [Except.ok.injEq] at hd
      rw [← hd]

/-- Closed instantiation of `C9_pgdg_edition_discarded` at version 16.6
with edition `se` supplied. -/
theorem C9_witness :
    DbVersion.create "16.6" (some "se") "pgdg"
      = DbVersion.create "16.6" none "pgdg"
    ∧ (DbVersion.create "16.6" (some "se") "pgdg"
        = .ok ⟨"16.6", none, "16", "pgdg"⟩
      ∧ (⟨"16.6", none, "16", "pgdg"⟩ : DbVersion).edition = none) :=
  ⟨(C9_pgdg_edition_discarded "16.6" (some "se")).1,
   ⟨by decide, (C9_pgdg_edition_discarded "16.6" (some "se")).2
     ⟨"16.6", none, "16", "pgdg"⟩ (by decide)⟩⟩
